import Mathlib

/-!
Shallow embedding of the GreenCloud Advisor recommendation engine
(`greencloud_advisor.py`, `src/carbon_intensity_fetcher.py`,
`src/aws_live_checker.py`, `aws_regions_fetcher.py`).

Python floats are modelled as exact rationals (`ℚ`); the haversine
distance function, which uses transcendental functions, is modelled
over `ℝ`.  External effects (the boto3-backed availability checks, the
ElectricityMaps HTTP request, the region catalog) are modelled as
oracle parameters returning `Except String _`: `Except.error` stands
for a raised Python exception.  The recommendation pipeline is
parametric in the distance function it uses, since the pipeline's
control flow is independent of the distance formula; the haversine
formula itself is embedded separately as `_calculate_distance`.
-/

namespace GreenCloud

/-- Embeds `RegionData` from `aws_regions_fetcher.py`: region code, display
name, and a (latitude, longitude) pair in decimal degrees. -/
structure RegionData where
  code : String
  name : String
  location : ℚ × ℚ
deriving DecidableEq, Repr, Inhabited

/-- Embeds the scored-region dict built in the loop of `recommend_region`
(fields `region_code`, `region_name`, `location_based_intensity`,
`market_based_intensity`, `sustainability_score`). -/
structure ScoredRegion where
  region_code : String
  region_name : String
  location_based_intensity : ℚ
  market_based_intensity : ℚ
  sustainability_score : ℚ
deriving DecidableEq, Repr, Inhabited

/-- Embeds the `analysis` dict of `recommend_region`'s success result. -/
structure Analysis where
  total_regions_evaluated : ℕ
  nearby_regions_found : ℕ
  service_compatible_regions : ℕ
deriving DecidableEq, Repr

/-- Embeds the dict returned by `recommend_region`: either one of the two
error dicts `{"error": msg}` or the success dict carrying
`recommended_region`, `all_options` and `analysis`. -/
inductive RecommendOutput where
  | error (msg : String)
  | success (recommended_region : ScoredRegion) (all_options : List ScoredRegion)
      (analysis : Analysis)
deriving DecidableEq, Repr

/-- Projection used to state claims about the counters: the `analysis`
dict is present only on the success dict, never on an error dict. -/
def analysisOf : RecommendOutput → Option Analysis
  | RecommendOutput.error _ => none
  | RecommendOutput.success _ _ a => some a

/-- Degrees to radians, `math.radians`. -/
noncomputable def radians (d : ℝ) : ℝ := d * Real.pi / 180

/-- Embeds `GreenCloudAdvisor._calculate_distance` (haversine formula,
Earth radius 6371 km), lines 18-29 of `greencloud_advisor.py`. -/
noncomputable def _calculate_distance (loc1 loc2 : ℝ × ℝ) : ℝ :=
  let lat1 := radians loc1.1
  let lon1 := radians loc1.2
  let lat2 := radians loc2.1
  let lon2 := radians loc2.2
  let dlat := lat2 - lat1
  let dlon := lon2 - lon1
  let a := Real.sin (dlat/2) ^ 2 + Real.cos lat1 * Real.cos lat2 * Real.sin (dlon/2) ^ 2
  let c := 2 * Real.arcsin (Real.sqrt a)
  6371 * c

/-- Embeds `GreenCloudAdvisor.find_nearby_regions`: keep the regions whose
distance from the user is at most `max_distance_km`, sorted by that
distance (Python's `sorted` is a stable sort, modelled by `mergeSort`).
The distance function is the `dist` parameter; the source calls
`self._calculate_distance`. -/
def find_nearby_regions (dist : ℚ × ℚ → ℚ × ℚ → ℚ) (regions : List RegionData)
    (user_location : ℚ × ℚ) (max_distance_km : ℚ) : List RegionData :=
  let nearby := (regions.map (fun region => (region, dist user_location region.location))).filter
    (fun x => decide (x.2 ≤ max_distance_km))
  (nearby.mergeSort (fun x y => decide (x.2 ≤ y.2))).map (fun x => x.1)

/-- Embeds `GreenCloudAdvisor.check_service_availability`: call the live
checker (the `avail` oracle, standing for
`check_aws_service_availability_live`) and turn any raised exception
into `false`. -/
def check_service_availability (avail : String → String → Except String Bool)
    (region_code service : String) : Bool :=
  match avail region_code service with
  | Except.ok b => b
  | Except.error _ => false

/-- Embeds `GreenCloudAdvisor.filter_by_services`: keep the regions for
which every required service's availability check returns true. -/
def filter_by_services (avail : String → String → Except String Bool)
    (regions : List RegionData) (required_services : List String) : List RegionData :=
  regions.filter
    (fun region => required_services.all
      (fun service => check_service_availability avail region.code service))

/-- Default of the `weight_market` parameter of
`calculate_sustainability_score` (0.7 in the source). -/
def weight_market_default : ℚ := 7/10

/-- Embeds `get_live_carbon_intensity` from
`src/carbon_intensity_fetcher.py`, lines 36-72.  The `api` oracle stands
for the ElectricityMaps HTTP request for the zone mapped to the region
(an `Option ℚ` response models `data.get("carbonIntensity", 400)`: `none`
when the key is absent).  An exception inside the `try` block is
re-raised wrapped in the "Failed to fetch" message; on success the
carbon intensity is divided by 1000 and the market-based value is 0.7
times the location-based one. -/
def get_live_carbon_intensity (api : String → Except String (Option ℚ))
    (region_code : String) : Except String (ℚ × ℚ) :=
  match api region_code with
  | Except.error e =>
      Except.error ("Failed to fetch carbon intensity for " ++ region_code ++ ": " ++ e)
  | Except.ok data =>
      let carbon_intensity := data.getD 400 / 1000
      let location_based := carbon_intensity
      let market_based := carbon_intensity * (7/10)
      Except.ok (location_based, market_based)

/-- Embeds `GreenCloudAdvisor.calculate_sustainability_score`, lines 60-66
of `greencloud_advisor.py`.  The `carbon` oracle stands for
`get_live_carbon_intensity`; its exception propagates. -/
def calculate_sustainability_score (carbon : String → Except String (ℚ × ℚ))
    (region_code : String) (weight_market : ℚ) : Except String (ℚ × ℚ × ℚ) :=
  match carbon region_code with
  | Except.error e => Except.error e
  | Except.ok (location_based, market_based) =>
      let score := market_based * weight_market + location_based * (1 - weight_market)
      Except.ok (location_based, market_based, score)

/-- Embeds Python's `round` to an integer (banker's rounding: round half
to even). -/
def python_round_int (x : ℚ) : ℤ :=
  if x - ⌊x⌋ < 1/2 then ⌊x⌋
  else if 1/2 < x - ⌊x⌋ then ⌊x⌋ + 1
  else if ⌊x⌋ % 2 = 0 then ⌊x⌋ else ⌊x⌋ + 1

/-- Embeds `round(score, 3)` from line 92 of `greencloud_advisor.py`. -/
def round3 (x : ℚ) : ℚ := (python_round_int (x * 1000) : ℚ) / 1000

/-- Embeds the scoring loop of `recommend_region`, lines 83-93: score each
compatible region in order with the default weight 0.7, storing the
score rounded to 3 decimal places; an exception raised by the carbon
oracle for any region aborts the loop and propagates. -/
def score_regions (carbon : String → Except String (ℚ × ℚ)) :
    List RegionData → Except String (List ScoredRegion)
  | [] => Except.ok []
  | region :: rest =>
    match calculate_sustainability_score carbon region.code weight_market_default with
    | Except.error e => Except.error e
    | Except.ok (location_based, market_based, sustainability_score) =>
      match score_regions carbon rest with
      | Except.error e => Except.error e
      | Except.ok scored =>
          Except.ok (⟨region.code, region.name, location_based, market_based,
            round3 sustainability_score⟩ :: scored)

/-- Comparator of the final sort, line 95:
`scored_regions.sort(key=lambda x: x["sustainability_score"])`. -/
def score_le (x y : ScoredRegion) : Bool :=
  decide (x.sustainability_score ≤ y.sustainability_score)

/-- Embeds `GreenCloudAdvisor.recommend_region`, lines 68-105 of
`greencloud_advisor.py`.  The two empty cases return error dicts as
ordinary values; an exception from the carbon oracle during scoring
propagates out of the whole call (`Except.error`).  The final sort is
Python's stable `list.sort` keyed on the stored (rounded) score,
modelled by `mergeSort`; the recommended region is the first element of
the sorted list. -/
def recommend_region (dist : ℚ × ℚ → ℚ × ℚ → ℚ)
    (avail : String → String → Except String Bool)
    (carbon : String → Except String (ℚ × ℚ))
    (regions : List RegionData) (user_location : ℚ × ℚ)
    (required_services : List String) (max_distance_km : ℚ) :
    Except String RecommendOutput :=
  let nearby_regions := find_nearby_regions dist regions user_location max_distance_km
  if nearby_regions.isEmpty then
    Except.ok (RecommendOutput.error "No regions found within specified distance")
  else
    let compatible_regions := filter_by_services avail nearby_regions required_services
    if compatible_regions.isEmpty then
      Except.ok (RecommendOutput.error "No regions support all required services")
    else
      match score_regions carbon compatible_regions with
      | Except.error e => Except.error e
      | Except.ok scored_regions =>
          let sorted_regions := scored_regions.mergeSort score_le
          Except.ok (RecommendOutput.success sorted_regions.headI sorted_regions
            ⟨regions.length, nearby_regions.length, compatible_regions.length⟩)

/-! ## Claim theorems -/

/-- C5: for every region `r` and weight `w`, `calculate_sustainability_score`
returns `score = marketBased * w + locationBased * (1 - w)` exactly, where
the two intensities are the values returned by the carbon-intensity oracle
for `r`, and the default weight is 0.7. -/
theorem calculate_sustainability_score_spec
    (carbon : String → Except String (ℚ × ℚ)) (r : String) (w lb mb : ℚ)
    (h : carbon r = Except.ok (lb, mb)) :
    calculate_sustainability_score carbon r w = Except.ok (lb, mb, mb * w + lb * (1 - w))
      ∧ weight_market_default = 7/10 := by
  refine ⟨?_, rfl⟩
  simp [calculate_sustainability_score, h]

/-- Witness for C5 at a concrete oracle: location-based 0.3, market-based
0.1, weight 0.7. -/
theorem calculate_sustainability_score_spec_witness :
    calculate_sustainability_score (fun _ => Except.ok (3/10, 1/10)) "eu-west-1" (7/10)
        = Except.ok (3/10, 1/10, (1/10) * (7/10) + (3/10) * (1 - 7/10))
      ∧ weight_market_default = 7/10 :=
  calculate_sustainability_score_spec (fun _ => Except.ok (3/10, 1/10)) "eu-west-1"
    (7/10) (3/10) (1/10) rfl

/-- C8: with an empty list of required services the availability gate is
vacuously true for every region, and `filter_by_services` leaves any list
of regions unchanged. -/
theorem filter_by_services_empty_requirements
    (avail : String → String → Except String Bool) (regions : List RegionData) :
    filter_by_services avail regions [] = regions
      ∧ ∀ region_code : String,
          ([] : List String).all
            (fun s => check_service_availability avail region_code s) = true := by
  constructor
  · simp [filter_by_services]
  · intro rc
    rfl

/-- C2: if the oracle call for some required service either raises or
returns false, the availability gate for that region is false (the
all-services conjunction fails) and the region is excluded by
`filter_by_services`, regardless of the other services' results. -/
theorem availability_gate_fail_closed
    (avail : String → String → Except String Bool) (region_code : String)
    (services : List String) (s : String) (hs : s ∈ services)
    (hfail : avail region_code s = Except.ok false
      ∨ ∃ e, avail region_code s = Except.error e) :
    services.all (fun svc => check_service_availability avail region_code svc) = false
      ∧ ∀ (regions : List RegionData) (r : RegionData), r.code = region_code →
          r ∉ filter_by_services avail regions services := by
  have hc : check_service_availability avail region_code s = false := by
    rcases hfail with h | ⟨e, h⟩ <;> simp [check_service_availability, h]
  have hall : services.all
      (fun svc => check_service_availability avail region_code svc) = false :=
    List.all_eq_false.mpr ⟨s, hs, by simp [hc]⟩
  refine ⟨hall, ?_⟩
  intro regions r hr hmem
  rw [filter_by_services, List.mem_filter, hr, hall] at hmem
  exact Bool.false_ne_true hmem.2

/-- Witness for C2: a single required service whose oracle call raises
disqualifies the region. -/
theorem availability_gate_fail_closed_witness :
    (["s3"].all (fun svc =>
        check_service_availability (fun _ _ => Except.error "boom") "us-east-1" svc) = false)
      ∧ ∀ (regions : List RegionData) (r : RegionData), r.code = "us-east-1" →
          r ∉ filter_by_services (fun _ _ => Except.error "boom") regions ["s3"] :=
  availability_gate_fail_closed (fun _ _ => Except.error "boom") "us-east-1"
    ["s3"] "s3" (by simp) (Or.inr ⟨"boom", rfl⟩)

/-- C9: whenever the carbon-intensity fetch succeeds, the market-based
intensity is exactly 0.7 times the location-based intensity (the
response's carbonIntensity divided by 1000), so with the default weight
the sustainability score is 0.79 times the location-based intensity. -/
theorem market_based_locked_to_location
    (api : String → Except String (Option ℚ)) (r : String) (resp : Option ℚ)
    (h : api r = Except.ok resp) :
    ∃ lb : ℚ, lb = resp.getD 400 / 1000
      ∧ get_live_carbon_intensity api r = Except.ok (lb, lb * (7/10))
      ∧ calculate_sustainability_score (get_live_carbon_intensity api) r
          weight_market_default = Except.ok (lb, lb * (7/10), (79/100) * lb) := by
  refine ⟨resp.getD 400 / 1000, rfl, ?_, ?_⟩
  · simp [get_live_carbon_intensity, h]
  · simp [calculate_sustainability_score, get_live_carbon_intensity, h, weight_market_default]
    ring

/-- Witness for C9 at a concrete oracle response of 500 g/kWh. -/
theorem market_based_locked_to_location_witness :
    ∃ lb : ℚ, lb = (some (500:ℚ)).getD 400 / 1000
      ∧ get_live_carbon_intensity (fun _ => Except.ok (some 500)) "us-east-1"
          = Except.ok (lb, lb * (7/10))
      ∧ calculate_sustainability_score
          (get_live_carbon_intensity (fun _ => Except.ok (some 500))) "us-east-1"
          weight_market_default = Except.ok (lb, lb * (7/10), (79/100) * lb) :=
  market_based_locked_to_location (fun _ => Except.ok (some 500)) "us-east-1"
    (some 500) rfl

/-- Squares of sine are invariant under negating the half-difference. -/
lemma sin_half_sub_sq_comm (x y : ℝ) :
    Real.sin ((x - y)/2) ^ 2 = Real.sin ((y - x)/2) ^ 2 := by
  rw [show (x - y)/2 = -((y - x)/2) by ring, Real.sin_neg]
  ring

/-- C6 (amended): the haversine distance is symmetric, zero on equal
coordinate pairs, and non-negative.  (Zero does NOT imply equality of the
coordinate pairs; see the counterexample at the poles.) -/
theorem haversine_props (a b : ℝ × ℝ) :
    _calculate_distance a b = _calculate_distance b a
      ∧ _calculate_distance a a = 0
      ∧ 0 ≤ _calculate_distance a b := by
  refine ⟨?_, ?_, ?_⟩
  · simp only [_calculate_distance]
    rw [sin_half_sub_sq_comm (radians b.1) (radians a.1),
      sin_half_sub_sq_comm (radians b.2) (radians a.2),
      mul_comm (Real.cos (radians a.1)) (Real.cos (radians b.1))]
  · simp [_calculate_distance]
  · simp only [_calculate_distance]
    have h0 : 0 ≤ Real.arcsin (Real.sqrt
        (Real.sin ((radians b.1 - radians a.1)/2) ^ 2
          + Real.cos (radians a.1) * Real.cos (radians b.1)
            * Real.sin ((radians b.2 - radians a.2)/2) ^ 2)) :=
      Real.arcsin_nonneg.mpr (Real.sqrt_nonneg _)
    linarith

/-- Counterexample to C6 as stated: the two distinct coordinate pairs
(90, 0) and (90, 10) — both within the valid latitude/longitude ranges —
have haversine distance exactly 0, so distance zero does not imply
equality of coordinate pairs. -/
theorem haversine_zero_at_distinct_points :
    _calculate_distance ((90:ℝ), 0) ((90:ℝ), 10) = 0
      ∧ ((90:ℝ), (0:ℝ)) ≠ ((90:ℝ), (10:ℝ)) := by
  constructor
  · simp only [_calculate_distance, radians]
    rw [show (90:ℝ) * Real.pi / 180 = Real.pi / 2 by ring]
    simp [Real.cos_pi_div_two]
  · simp only [ne_eq, Prod.mk.injEq, not_and]
    intro _
    norm_num

/-- Transitivity of the final sort's comparator. -/
lemma score_le_trans (a b c : ScoredRegion) :
    score_le a b = true → score_le b c = true → score_le a c = true := by
  simp only [score_le, decide_eq_true_eq]
  exact le_trans

/-- Totality of the final sort's comparator. -/
lemma score_le_total (a b : ScoredRegion) : (score_le a b || score_le b a) = true := by
  simp only [score_le, Bool.or_eq_true, decide_eq_true_eq]
  exact le_total _ _

/-- Evaluation of a two-element stable merge sort. -/
lemma mergeSort_two {α : Type} (le : α → α → Bool) (a b : α) :
    [a, b].mergeSort le = if le a b then [a, b] else [b, a] := by
  cases h : le a b <;> simp [List.mergeSort, List.merge, h]

/-- Unfolding of `recommend_region` on runs that reach the ranking stage. -/
lemma recommend_region_ranked (dist : ℚ × ℚ → ℚ × ℚ → ℚ)
    (avail : String → String → Except String Bool)
    (carbon : String → Except String (ℚ × ℚ))
    (regions : List RegionData) (user_location : ℚ × ℚ)
    (required_services : List String) (max_distance_km : ℚ)
    (scored : List ScoredRegion)
    (hc : filter_by_services avail
      (find_nearby_regions dist regions user_location max_distance_km) required_services ≠ [])
    (hs : score_regions carbon (filter_by_services avail
      (find_nearby_regions dist regions user_location max_distance_km) required_services)
        = Except.ok scored) :
    recommend_region dist avail carbon regions user_location required_services max_distance_km
      = Except.ok (RecommendOutput.success (scored.mergeSort score_le).headI
          (scored.mergeSort score_le)
          ⟨regions.length,
            (find_nearby_regions dist regions user_location max_distance_km).length,
            (filter_by_services avail
              (find_nearby_regions dist regions user_location max_distance_km)
              required_services).length⟩) := by
  have hn : find_nearby_regions dist regions user_location max_distance_km ≠ [] := by
    intro h
    exact hc (by rw [h]; rfl)
  have e1 : (find_nearby_regions dist regions user_location max_distance_km).isEmpty = false :=
    List.isEmpty_eq_false.mpr hn
  have e2 : (filter_by_services avail
      (find_nearby_regions dist regions user_location max_distance_km)
      required_services).isEmpty = false :=
    List.isEmpty_eq_false.mpr hc
  simp only [recommend_region, e1, e2, Bool.false_eq_true, if_false, hs]

/-- C1 (amended): on every run reaching the ranking stage the returned
option list is sorted ascending by (stored) sustainability score and is a
permutation of the scored list, and any pair already ordered by score —
in particular any equal-score pair — keeps its arrival order from the
distance-filtered list (Python's sort is stable); the tie-break is
arrival order, not region code.  The output is still a deterministic
function of the inputs and oracle responses. -/
theorem ranking_sorted_and_stable (dist : ℚ × ℚ → ℚ × ℚ → ℚ)
    (avail : String → String → Except String Bool)
    (carbon : String → Except String (ℚ × ℚ))
    (regions : List RegionData) (user_location : ℚ × ℚ)
    (required_services : List String) (max_distance_km : ℚ)
    (scored : List ScoredRegion)
    (hc : filter_by_services avail
      (find_nearby_regions dist regions user_location max_distance_km) required_services ≠ [])
    (hs : score_regions carbon (filter_by_services avail
      (find_nearby_regions dist regions user_location max_distance_km) required_services)
        = Except.ok scored) :
    ∃ best opts analysis,
      recommend_region dist avail carbon regions user_location required_services max_distance_km
          = Except.ok (RecommendOutput.success best opts analysis)
        ∧ opts.Pairwise (fun x y => x.sustainability_score ≤ y.sustainability_score)
        ∧ opts.Perm scored
        ∧ (∀ x y : ScoredRegion, [x, y].Sublist scored →
            x.sustainability_score ≤ y.sustainability_score → [x, y].Sublist opts)
        ∧ best = opts.headI := by
  refine ⟨_, _, _,
    recommend_region_ranked dist avail carbon regions user_location required_services
      max_distance_km scored hc hs, ?_, List.mergeSort_perm scored score_le, ?_, rfl⟩
  · exact (List.sorted_mergeSort score_le_trans score_le_total scored).imp
      (fun h => by simpa [score_le] using h)
  · intro x y hsub hle
    exact List.sublist_mergeSort score_le_trans score_le_total
      (List.pairwise_pair.mpr (by simpa [score_le] using hle)) hsub

/-- Witness for the amended C1 on a concrete one-region run. -/
theorem ranking_sorted_and_stable_witness :
    ∃ best opts analysis,
      recommend_region (fun _ loc => loc.1) (fun _ _ => Except.ok true)
          (fun _ => Except.ok (0, 0)) [⟨"r1", "R1", (1, 0)⟩] (0, 0) [] 5000
          = Except.ok (RecommendOutput.success best opts analysis)
        ∧ opts.Pairwise (fun x y => x.sustainability_score ≤ y.sustainability_score)
        ∧ opts.Perm [⟨"r1", "R1", 0, 0, 0⟩]
        ∧ (∀ x y : ScoredRegion, [x, y].Sublist [⟨"r1", "R1", 0, 0, 0⟩] →
            x.sustainability_score ≤ y.sustainability_score → [x, y].Sublist opts)
        ∧ best = opts.headI :=
  ranking_sorted_and_stable (fun _ loc => loc.1) (fun _ _ => Except.ok true)
    (fun _ => Except.ok (0, 0)) [⟨"r1", "R1", (1, 0)⟩] (0, 0) [] 5000
    [⟨"r1", "R1", 0, 0, 0⟩]
    (by norm_num [filter_by_services, find_nearby_regions, List.mergeSort_singleton])
    (by norm_num [score_regions, calculate_sustainability_score, filter_by_services,
      find_nearby_regions, check_service_availability, List.mergeSort_singleton,
      round3, python_round_int, weight_market_default])

/-- Counterexample to C1 as stated: two regions tie at score 0, and the
one with the lexicographically larger code ("zz-1"), having arrived first
from the distance filter, stays ranked before "aa-1" — the equal-score
order is not region-code ascending. -/
theorem ranking_ignores_region_code :
    recommend_region (fun _ loc => loc.1) (fun _ _ => Except.ok true)
        (fun _ => Except.ok (0, 0))
        [⟨"zz-1", "Z", (1, 0)⟩, ⟨"aa-1", "A", (2, 0)⟩] (0, 0) [] 5000
      = Except.ok (RecommendOutput.success ⟨"zz-1", "Z", 0, 0, 0⟩
          [⟨"zz-1", "Z", 0, 0, 0⟩, ⟨"aa-1", "A", 0, 0, 0⟩] ⟨2, 2, 2⟩)
      ∧ "aa-1" < "zz-1" := by
  constructor
  · norm_num [recommend_region, find_nearby_regions, filter_by_services,
      check_service_availability, score_regions, calculate_sustainability_score,
      round3, python_round_int, weight_market_default, score_le,
      mergeSort_two, List.mergeSort_singleton]
  · rw [String.lt_iff_toList_lt]
    decide

/-- C10: the stored sustainability score is the exact score rounded to 3
decimal places; the final ranking sorts on this stored (rounded) value;
two exact scores differing by less than half of 0.001 can round to the
same stored value; equal stored scores keep their arrival order from the
distance filter (stable sort), and the distance filter itself delivers
regions in distance-ascending order. -/
theorem rounded_score_ranking (carbon : String → Except String (ℚ × ℚ)) :
    (∀ (region : RegionData) (rest : List RegionData) (lb mb s : ℚ)
        (scoredRest : List ScoredRegion),
        calculate_sustainability_score carbon region.code weight_market_default
            = Except.ok (lb, mb, s) →
        score_regions carbon rest = Except.ok scoredRest →
        score_regions carbon (region :: rest)
            = Except.ok (⟨region.code, region.name, lb, mb, round3 s⟩ :: scoredRest))
      ∧ (∀ scored : List ScoredRegion,
          (scored.mergeSort score_le).Pairwise
            (fun x y => x.sustainability_score ≤ y.sustainability_score))
      ∧ (∃ s1 s2 : ℚ, s1 ≠ s2 ∧ |s1 - s2| < 1/2 * (1/1000) ∧ round3 s1 = round3 s2)
      ∧ (∀ (scored : List ScoredRegion) (x y : ScoredRegion),
          [x, y].Sublist scored → x.sustainability_score = y.sustainability_score →
          [x, y].Sublist (scored.mergeSort score_le))
      ∧ (∀ (dist : ℚ × ℚ → ℚ × ℚ → ℚ) (regions : List RegionData)
          (loc : ℚ × ℚ) (md : ℚ), ∃ l : List (RegionData × ℚ),
          find_nearby_regions dist regions loc md = l.map Prod.fst
            ∧ l.Pairwise (fun x y => x.2 ≤ y.2)) := by
  refine ⟨?_, ?_, ?_, ?_, ?_⟩
  · intro region rest lb mb s scoredRest h1 h2
    simp only [score_regions, h1, h2]
  · intro scored
    exact (List.sorted_mergeSort score_le_trans score_le_total scored).imp
      (fun h => by simpa [score_le] using h)
  · refine ⟨1001/10000, 1004/10000, by norm_num, ?_, ?_⟩
    · rw [abs_sub_comm, abs_of_pos (by norm_num)]
      norm_num
    · norm_num [round3, python_round_int]
  · intro scored x y hsub heq
    exact List.sublist_mergeSort score_le_trans score_le_total
      (List.pairwise_pair.mpr (by simp [score_le, heq])) hsub
  · intro dist regions loc md
    refine ⟨_, rfl, ?_⟩
    have htr : ∀ a b c : RegionData × ℚ, decide (a.2 ≤ b.2) = true →
        decide (b.2 ≤ c.2) = true → decide (a.2 ≤ c.2) = true := by
      intro a b c
      simp only [decide_eq_true_eq]
      exact le_trans
    have hto : ∀ a b : RegionData × ℚ,
        (decide (a.2 ≤ b.2) || decide (b.2 ≤ a.2)) = true := by
      intro a b
      simp only [Bool.or_eq_true, decide_eq_true_eq]
      exact le_total _ _
    exact (List.sorted_mergeSort htr hto _).imp (fun h => by simpa using h)

/-- Witness for C10: the stored score of a concretely scored region is the
rounded exact score. -/
theorem rounded_score_ranking_witness :
    score_regions (fun _ => Except.ok (0, 0)) [⟨"r1", "R1", (1, 0)⟩]
      = Except.ok [⟨"r1", "R1", 0, 0,
          round3 (0 * weight_market_default + 0 * (1 - weight_market_default))⟩] :=
  (rounded_score_ranking (fun _ => Except.ok (0, 0))).1 ⟨"r1", "R1", (1, 0)⟩ [] 0 0
    (0 * weight_market_default + 0 * (1 - weight_market_default)) [] rfl rfl

/-- If the carbon oracle raises for some region of the list, the scoring
loop aborts with an error. -/
lemma score_regions_error (carbon : String → Except String (ℚ × ℚ))
    (l : List RegionData) (r : RegionData) (e : String)
    (hr : r ∈ l) (he : carbon r.code = Except.error e) :
    ∃ msg, score_regions carbon l = Except.error msg := by
  induction l with
  | nil => cases hr
  | cons a rest ih =>
    rcases List.mem_cons.mp hr with rfl | hmem
    · exact ⟨e, by simp [score_regions, calculate_sustainability_score, he]⟩
    · cases hca : calculate_sustainability_score carbon a.code weight_market_default with
      | error e2 => exact ⟨e2, by simp [score_regions, hca]⟩
      | ok v =>
        obtain ⟨msg, hm⟩ := ih hmem
        exact ⟨msg, by simp [score_regions, hca, hm]⟩

/-- C3 (amended): if the carbon-intensity oracle fails for any region that
survived the availability filter, the whole `recommend_region` call fails
with an engine-level error; no partial ranking excluding just that region
is produced, and no diagnostics are recorded. -/
theorem carbon_failure_is_fatal (dist : ℚ × ℚ → ℚ × ℚ → ℚ)
    (avail : String → String → Except String Bool)
    (carbon : String → Except String (ℚ × ℚ))
    (regions : List RegionData) (user_location : ℚ × ℚ)
    (required_services : List String) (max_distance_km : ℚ)
    (r : RegionData) (e : String)
    (hr : r ∈ filter_by_services avail
      (find_nearby_regions dist regions user_location max_distance_km) required_services)
    (he : carbon r.code = Except.error e) :
    ∃ msg, recommend_region dist avail carbon regions user_location required_services
        max_distance_km = Except.error msg := by
  have hc : filter_by_services avail
      (find_nearby_regions dist regions user_location max_distance_km)
      required_services ≠ [] := List.ne_nil_of_mem hr
  have hn : find_nearby_regions dist regions user_location max_distance_km ≠ [] := by
    have : r ∈ find_nearby_regions dist regions user_location max_distance_km :=
      List.mem_of_mem_filter hr
    exact List.ne_nil_of_mem this
  obtain ⟨msg, hm⟩ := score_regions_error carbon _ r e hr he
  refine ⟨msg, ?_⟩
  simp only [recommend_region, List.isEmpty_eq_false.mpr hn, List.isEmpty_eq_false.mpr hc,
    Bool.false_eq_true, if_false, hm]

/-- Witness for the amended C3: one region in range, carbon oracle raises. -/
theorem carbon_failure_is_fatal_witness :
    ∃ msg, recommend_region (fun _ loc => loc.1) (fun _ _ => Except.ok true)
        (fun _ => Except.error "boom") [⟨"r1", "R1", (1, 0)⟩] (0, 0) [] 5000
      = Except.error msg :=
  carbon_failure_is_fatal (fun _ loc => loc.1) (fun _ _ => Except.ok true)
    (fun _ => Except.error "boom") [⟨"r1", "R1", (1, 0)⟩] (0, 0) [] 5000
    ⟨"r1", "R1", (1, 0)⟩ "boom"
    (by norm_num [filter_by_services, find_nearby_regions, List.mergeSort_singleton]) rfl

/-- Counterexample to C3 as stated: two regions survive the availability
filter; the carbon oracle fails only for "r2", yet the whole call fails
with an engine-level error instead of ranking "r1" alone — the failure is
propagated, not converted to a per-region exclusion. -/
theorem carbon_failure_not_localized :
    recommend_region (fun _ loc => loc.1) (fun _ _ => Except.ok true)
        (fun rc => if rc = "r2" then Except.error "boom" else Except.ok (0, 0))
        [⟨"r1", "R1", (1, 0)⟩, ⟨"r2", "R2", (2, 0)⟩] (0, 0) [] 5000
      = Except.error "boom" := by
  norm_num [recommend_region, find_nearby_regions, filter_by_services,
    check_service_availability, score_regions, calculate_sustainability_score,
    weight_market_default, mergeSort_two, List.mergeSort_singleton,
    (by decide : ("r1" : String) ≠ "r2"), (by decide : ("r2" : String) = "r2")]

/-- C4 (amended): when regions pass the distance filter but none pass the
availability filter, `recommend_region` returns the error dict
"No regions support all required services" as an ordinary value — a
message distinct from the empty-distance dict, so the two empty outcomes
are distinguishable, and not a raised exception — but that dict carries
no stage counters (no `analysis` entry), so no surviving-distance-filter
count is reported. -/
theorem empty_result_error_dict_without_counters (dist : ℚ × ℚ → ℚ × ℚ → ℚ)
    (avail : String → String → Except String Bool)
    (carbon : String → Except String (ℚ × ℚ))
    (regions : List RegionData) (user_location : ℚ × ℚ)
    (required_services : List String) (max_distance_km : ℚ)
    (h1 : find_nearby_regions dist regions user_location max_distance_km ≠ [])
    (h2 : filter_by_services avail
      (find_nearby_regions dist regions user_location max_distance_km)
      required_services = []) :
    recommend_region dist avail carbon regions user_location required_services max_distance_km
        = Except.ok (RecommendOutput.error "No regions support all required services")
      ∧ (∀ msg, analysisOf (RecommendOutput.error msg) = none)
      ∧ "No regions support all required services"
          ≠ "No regions found within specified distance" := by
  refine ⟨?_, fun _ => rfl, by decide⟩
  simp only [recommend_region, List.isEmpty_eq_false.mpr h1, Bool.false_eq_true, if_false, h2,
    List.isEmpty_nil, if_true]

/-- Witness for the amended C4: one region in range, one required service
unavailable everywhere. -/
theorem empty_result_error_dict_without_counters_witness :
    recommend_region (fun _ loc => loc.1) (fun _ _ => Except.ok false)
          (fun _ => Except.ok (0, 0)) [⟨"r1", "R1", (1, 0)⟩] (0, 0) ["s3"] 5000
        = Except.ok (RecommendOutput.error "No regions support all required services")
      ∧ (∀ msg, analysisOf (RecommendOutput.error msg) = none)
      ∧ "No regions support all required services"
          ≠ "No regions found within specified distance" :=
  empty_result_error_dict_without_counters (fun _ loc => loc.1) (fun _ _ => Except.ok false)
    (fun _ => Except.ok (0, 0)) [⟨"r1", "R1", (1, 0)⟩] (0, 0) ["s3"] 5000
    (by norm_num [find_nearby_regions, List.mergeSort_singleton])
    (by norm_num [filter_by_services, find_nearby_regions, check_service_availability,
      List.mergeSort_singleton])

/-- Counterexample to C4 as stated: a run where one region survives the
distance filter and the availability filter empties the set returns the
bare error dict, whose `analysisOf` projection is `none` — it does not
carry the non-zero surviving-distance-filter count the claim requires. -/
theorem empty_result_carries_no_counters :
    recommend_region (fun _ loc => loc.1) (fun _ _ => Except.ok false)
          (fun _ => Except.ok (0, 0)) [⟨"r1", "R1", (1, 0)⟩] (0, 0) ["s3"] 5000
        = Except.ok (RecommendOutput.error "No regions support all required services")
      ∧ analysisOf (RecommendOutput.error "No regions support all required services")
          = none := by
  constructor
  · norm_num [recommend_region, find_nearby_regions, filter_by_services,
      check_service_availability, List.mergeSort_singleton]
  · rfl

/-- C7 (amended): `recommend_region` performs no coordinate validation —
there is no rejection path for out-of-range latitude or longitude; the
malformed location is fed to the distance computation like any other, so
the result depends on the user location only through the distance
function. -/
theorem no_coordinate_validation (dist : ℚ × ℚ → ℚ × ℚ → ℚ)
    (avail : String → String → Except String Bool)
    (carbon : String → Except String (ℚ × ℚ))
    (regions : List RegionData) (loc1 loc2 : ℚ × ℚ)
    (required_services : List String) (max_distance_km : ℚ)
    (hout : 90 < |loc1.1| ∨ 180 < |loc1.2|)
    (heq : ∀ p, dist loc1 p = dist loc2 p) :
    recommend_region dist avail carbon regions loc1 required_services max_distance_km
      = recommend_region dist avail carbon regions loc2 required_services max_distance_km := by
  have hfn : find_nearby_regions dist regions loc1 max_distance_km
      = find_nearby_regions dist regions loc2 max_distance_km := by
    simp only [find_nearby_regions]
    rw [show (fun region => (region, dist loc1 region.location))
        = (fun region : RegionData => (region, dist loc2 region.location)) from
      funext fun r => by rw [heq]]
  simp only [recommend_region, hfn]

/-- Witness for the amended C7: latitude 100 is out of range, yet the run
proceeds exactly as from a valid location inducing the same distances. -/
theorem no_coordinate_validation_witness :
    recommend_region (fun _ loc => loc.1) (fun _ _ => Except.ok true)
        (fun _ => Except.ok (0, 0)) [⟨"r1", "R1", (1, 0)⟩] (100, 0) [] 5000
      = recommend_region (fun _ loc => loc.1) (fun _ _ => Except.ok true)
        (fun _ => Except.ok (0, 0)) [⟨"r1", "R1", (1, 0)⟩] (0, 0) [] 5000 :=
  no_coordinate_validation (fun _ loc => loc.1) (fun _ _ => Except.ok true)
    (fun _ => Except.ok (0, 0)) [⟨"r1", "R1", (1, 0)⟩] (100, 0) (0, 0) [] 5000
    (Or.inl (by norm_num)) (fun _ => rfl)

/-- Counterexample to C7 as stated: with latitude 100 (out of range) the
pipeline is not rejected before any stage — it runs to completion and
returns a ranked recommendation. -/
theorem out_of_range_location_not_rejected :
    recommend_region (fun _ loc => loc.1) (fun _ _ => Except.ok true)
        (fun _ => Except.ok (0, 0)) [⟨"r1", "R1", (1, 0)⟩] (100, 0) [] 5000
      = Except.ok (RecommendOutput.success ⟨"r1", "R1", 0, 0, 0⟩
          [⟨"r1", "R1", 0, 0, 0⟩] ⟨1, 1, 1⟩)
      ∧ ¬ |(100 : ℚ)| ≤ 90 := by
  constructor
  · norm_num [recommend_region, find_nearby_regions, filter_by_services,
      check_service_availability, score_regions, calculate_sustainability_score,
      round3, python_round_int, weight_market_default, score_le,
      List.mergeSort_singleton]
  · norm_num

end GreenCloud
